import Mathlib

/-!
Shallow embedding of the tradingview news-AI service (`src/main.py`), a
FastAPI app with two endpoints:

* `POST /analyze-news` (`analyze_news`): formats the request's article
  records into a text block, issues a first chat-completion call for a
  narrative analysis, issues a second chat-completion call whose user
  prompt embeds the narrative text, attempts to parse the second reply as
  JSON (falling back to a fixed default dict on `json.JSONDecodeError`),
  and returns `{status, analysis, verdict}`.
* `POST /get-market-context` (`get_market_context`): one completion call,
  returned under the `market_context` key.

The OpenAI client is modelled as a function from a completion call to
`Except String String` (generated text, or the stringified exception that
the `except` handler turns into an HTTP 500 detail).  Each endpoint
returns the list of completion calls it issued together with its outcome,
so that trace properties (how many calls, with which prompts and
parameters) can be stated.  Temperatures are exact decimals, modelled in
`ℚ`.  Python's `json.loads` is modelled by an executable JSON parser
(`jsonLoads`) following the `json` module's strict grammar.
-/

/-- A Python value that can appear as an article-record field.  The service
reads fields out of `Dict[str, Any]` with `.get` and interpolates them into
an f-string, so all that matters is the value's `str()` rendering; we model
the representative cases: a string, `None`, and an int. -/
inductive PyVal where
  | str (s : String)
  | pynone
  | int (n : Int)
deriving DecidableEq

/-- Python `str()` of a `PyVal`, as produced by f-string interpolation. -/
def PyVal.render : PyVal → String
  | .str s => s
  | .pynone => "None"
  | .int n => toString n

/-- One article record.  A field is `none` when the key is absent from the
dict (so `.get` returns the default), and `some v` when the key is present
with value `v` (so `.get` returns `v`, even when `v` is Python `None`). -/
structure Article where
  title : Option PyVal
  content : Option PyVal
  source : Option PyVal
  date : Option PyVal
deriving DecidableEq

/-- Model of `article.get(key, default)` followed by f-string rendering:
the present value's `str()`, or the default string when the key is absent. -/
def fieldText (f : Option PyVal) (dflt : String) : String :=
  match f with
  | some v => v.render
  | none => dflt

/-- The four-line block built for one article in `analyze_news`
(`src/main.py` lines 68-71). -/
def formatArticle (a : Article) : String :=
  "Title: " ++ fieldText a.title "No Title" ++ "\n" ++
  "Content: " ++ fieldText a.content "No Content" ++ "\n" ++
  "Source: " ++ fieldText a.source "Unknown" ++ "\n" ++
  "Date: " ++ fieldText a.date "Unknown"

/-- The `articles_text` value of `analyze_news`:
`"\n\n".join(block for article in request.articles)`. -/
def articlesText (articles : List Article) : String :=
  String.intercalate "\n\n" (articles.map formatArticle)

/-- The module-level `SYSTEM_PROMPT` constant of `src/main.py`. -/
def SYSTEM_PROMPT : String :=
  "You are a financial news analyst. Analyze the provided news articles and create a concise but comprehensive market analysis. Focus on the potential impact on trading decisions.\n\nYour analysis should follow this format:\n\n *Market Impact Analysis*\n\n• ECB\x27s latest decision: [key point]\n• Market implications: [key point]\n• Current trend: [key point]\n\n *Market Sentiment*\n\n• Direction: [Bullish/Bearish/Neutral]\n• Strength: [Strong/Moderate/Weak]\n• Key driver: [One line explanation]\n\n *Trading Implications*\n\n• Short-term outlook: [Expected impact]\n• Risk assessment: [High/Medium/Low]\n• Key levels: [Support/Resistance if relevant]\n\n *Risk Factors*\n\n• [Risk factor 1]\n• [Risk factor 2]\n• [Risk factor 3]\n\nRemember:\n- Use clear, simple language\n- Keep each point concise\n- Add a space between sections\n- Use * for emphasis instead of #\n- Format numbers clearly (1.2350 instead of 1.235)"

/-- The stage-1 user prompt of `analyze_news` (`src/main.py` lines 75-81). -/
def narrativeUserPrompt (instrument : String) (articlesTxt : String) : String :=
  "Analyze these news articles about " ++ instrument ++
  " and provide a concise market analysis.\n\nNews Articles:\n" ++ articlesTxt ++
  "\n\nFormat your response according to the following guidelines:\n" ++ SYSTEM_PROMPT

/-- The part of the stage-2 user prompt before the interpolated narrative
text (`src/main.py` lines 98-99; the triple-quoted source keeps its
8-space indentation). -/
def verdictUserPromptPre (instrument : String) : String :=
  "Based on the news analysis, provide a clear trading verdict for " ++ instrument ++
  ".\n        Previous analysis: "

/-- The part of the stage-2 user prompt after the interpolated narrative
text (`src/main.py` lines 100-104). -/
def verdictUserPromptPost : String :=
  "\n        \n        Format your response as a JSON with these fields:\n        - verdict: (STRONG_BUY, BUY, NEUTRAL, SELL, STRONG_SELL)\n        - confidence: (percentage between 0-100)\n        - key_reason: (brief explanation)"

/-- The full stage-2 user prompt (`verdict_prompt` in `src/main.py`). -/
def verdictUserPrompt (instrument : String) (narrativeText : String) : String :=
  verdictUserPromptPre instrument ++ narrativeText ++ verdictUserPromptPost

/-- The user prompt of `get_market_context` (`src/main.py` lines 145-151). -/
def contextUserPrompt (instrument : String) : String :=
  "Provide a brief market context analysis for " ++ instrument ++
  ". Consider:\n        1. Related instruments and their performance\n        2. Key market drivers\n        3. Important technical levels\n        4. Upcoming economic events that might impact the instrument\n        \n        Format your response in a clear, concise way."

/-- A value produced by Python's `json.loads`.  Numbers are modelled
exactly in `ℚ` (the module's int/float distinction and float rounding are
abstracted away); `nan`, `inf`, `ninf` stand for the non-standard `NaN`,
`Infinity`, `-Infinity` constants that `json.loads` accepts by default. -/
inductive JsonVal where
  | null
  | bool (b : Bool)
  | num (q : ℚ)
  | nan
  | inf
  | ninf
  | str (s : String)
  | arr (xs : List JsonVal)
  | obj (xs : List (String × JsonVal))

/-- JSON insignificant whitespace, as accepted between tokens. -/
def isJsonWs (c : Char) : Bool :=
  c = ' ' || c = '\t' || c = '\n' || c = '\r'

/-- Drop leading JSON whitespace. -/
def skipWs : List Char → List Char
  | c :: cs => if isJsonWs c then skipWs cs else c :: cs
  | [] => []

/-- Decimal digit test. -/
def isDigitCh (c : Char) : Bool := '0' ≤ c && c ≤ '9'

/-- Split off a maximal run of decimal digits. -/
def takeDigits : List Char → List Char × List Char
  | c :: cs =>
    if isDigitCh c then
      let (ds, r) := takeDigits cs
      (c :: ds, r)
    else ([], c :: cs)
  | [] => ([], [])

/-- Value of a run of decimal digits. -/
def digitsToNat (ds : List Char) : Nat :=
  ds.foldl (fun a c => a * 10 + (c.toNat - 48)) 0

/-- Value of one hex digit, when it is one. -/
def hexDigitVal (c : Char) : Option Nat :=
  if '0' ≤ c && c ≤ '9' then some (c.toNat - 48)
  else if 'a' ≤ c && c ≤ 'f' then some (c.toNat - 97 + 10)
  else if 'A' ≤ c && c ≤ 'F' then some (c.toNat - 65 + 10)
  else none

/-- Value of four hex digits, when all four are hex digits. -/
def hexQuad (a b c d : Char) : Option Nat :=
  match hexDigitVal a, hexDigitVal b, hexDigitVal c, hexDigitVal d with
  | some va, some vb, some vc, some vd => some (((va * 16 + vb) * 16 + vc) * 16 + vd)
  | _, _, _, _ => none

/-- The integer part of the number grammar `0 | [1-9][0-9]*` (a leading
zero is never followed by more digits, matching the module's regex). -/
def scanIntPart : List Char → Option (List Char × List Char)
  | '0' :: r => some (['0'], r)
  | c :: r =>
    if isDigitCh c then
      let (ds, r2) := takeDigits r
      some (c :: ds, r2)
    else none
  | [] => none

/-- The optional fraction part `(\.[0-9]+)?`: consumed only when the dot
is followed by at least one digit, otherwise nothing is consumed. -/
def scanFrac (cs : List Char) : List Char × List Char :=
  match cs with
  | '.' :: r =>
    match takeDigits r with
    | ([], _) => ([], cs)
    | (ds, r2) => (ds, r2)
  | _ => ([], cs)

/-- The optional exponent part `([eE][-+]?[0-9]+)?`: consumed only when at
least one digit follows, otherwise nothing is consumed. -/
def scanExpPart (cs : List Char) : Int × List Char :=
  match cs with
  | c :: r =>
    if c = 'e' || c = 'E' then
      let (sgn, r1) : Int × List Char :=
        match r with
        | '+' :: r2 => (1, r2)
        | '-' :: r2 => (-1, r2)
        | _ => (1, r)
      match takeDigits r1 with
      | ([], _) => (0, cs)
      | (ds, r2) => (sgn * (digitsToNat ds : Int), r2)
    else (0, cs)
  | [] => (0, cs)

/-- The exact rational `±(intPart.fracPart) × 10^exp`, built with core
`mkRat` so that it evaluates by kernel reduction. -/
def decimalValue (neg : Bool) (intDs fracDs : List Char) (e : Int) : ℚ :=
  let mnat : Int := Int.ofNat (digitsToNat (intDs ++ fracDs))
  let m : Int := if neg then -mnat else mnat
  let shift : Int := e - (fracDs.length : Int)
  if 0 ≤ shift then mkRat (m * Int.ofNat (10 ^ shift.toNat)) 1
  else mkRat m (10 ^ (-shift).toNat)

/-- Parse a number at the head of the input (which starts with `-` or a
digit); consumes the maximal match of the module's number regex. -/
def parseNum (cs : List Char) : Option (JsonVal × List Char) :=
  let (neg, cs1) : Bool × List Char :=
    match cs with
    | '-' :: r => (true, r)
    | _ => (false, cs)
  match scanIntPart cs1 with
  | none => none
  | some (ids, cs2) =>
    let (fds, cs3) := scanFrac cs2
    let (e, cs4) := scanExpPart cs3
    some (.num (decimalValue neg ids fds e), cs4)

/-- The character named by a one-letter escape, when the escape is legal. -/
def unescapeChar : Char → Option Char
  | '"' => some '"'
  | '\\' => some '\\'
  | '/' => some '/'
  | 'b' => some '\x08'
  | 'f' => some '\x0C'
  | 'n' => some '\n'
  | 'r' => some '\r'
  | 't' => some '\t'
  | _ => none

/-- Scan the body of a JSON string after the opening quote into a list of
code points, strict mode: raw control characters below U+0020 are
rejected, escapes are the eight standard ones plus `\uXXXX`. -/
def strCodes : List Char → Option (List Nat × List Char)
  | '"' :: rest => some ([], rest)
  | '\\' :: 'u' :: a :: b :: c :: d :: rest =>
    (match hexQuad a b c d with
     | none => none
     | some n =>
       match strCodes rest with
       | some (ts, r) => some (n :: ts, r)
       | none => none)
  | '\\' :: e :: rest =>
    (match unescapeChar e with
     | none => none
     | some ch =>
       match strCodes rest with
       | some (ts, r) => some (ch.toNat :: ts, r)
       | none => none)
  | c :: rest =>
    if c.toNat < 0x20 then none
    else
      match strCodes rest with
      | some (ts, r) => some (c.toNat :: ts, r)
      | none => none
  | [] => none

/-- Turn scanned code points into characters, combining an adjacent
high/low `\u` surrogate pair into one character as `json.loads` does.
(A lone surrogate, which Python would keep in the decoded `str`, has no
Lean `Char`; `Char.ofNat` maps it to NUL.) -/
def combineSurrogates : List Nat → List Char
  | n :: m :: rest =>
    if 0xD800 ≤ n && n < 0xDC00 && 0xDC00 ≤ m && m < 0xE000 then
      Char.ofNat (0x10000 + (n - 0xD800) * 0x400 + (m - 0xDC00)) :: combineSurrogates rest
    else Char.ofNat n :: combineSurrogates (m :: rest)
  | [n] => [Char.ofNat n]
  | [] => []

/-- Parse the body of a JSON string after the opening quote. -/
def parseStrBody (cs : List Char) : Option (String × List Char) :=
  match strCodes cs with
  | some (ts, rest) => some (String.mk (combineSurrogates ts), rest)
  | none => none

/-- Python-dict insertion: a repeated key keeps its first position and
takes the last value; a new key is appended at the end. -/
def dictInsert (k : String) (v : JsonVal) :
    List (String × JsonVal) → List (String × JsonVal)
  | [] => [(k, v)]
  | (k2, v2) :: rest =>
    if k = k2 then (k2, v) :: rest else (k2, v2) :: dictInsert k v rest

mutual

/-- Parse one JSON value after optional whitespace (fuel-indexed). -/
def parseValue : Nat → List Char → Option (JsonVal × List Char)
  | 0, _ => none
  | fuel + 1, cs =>
    match skipWs cs with
    | '"' :: r =>
      (match parseStrBody r with
       | some (s, r2) => some (.str s, r2)
       | none => none)
    | '\x7b' :: r =>
      (match skipWs r with
       | '\x7d' :: r2 => some (.obj [], r2)
       | r2 => parseObjBody fuel [] r2)
    | '[' :: r =>
      (match skipWs r with
       | ']' :: r2 => some (.arr [], r2)
       | r2 => parseArrBody fuel r2)
    | 'n' :: 'u' :: 'l' :: 'l' :: r => some (.null, r)
    | 't' :: 'r' :: 'u' :: 'e' :: r => some (.bool true, r)
    | 'f' :: 'a' :: 'l' :: 's' :: 'e' :: r => some (.bool false, r)
    | 'N' :: 'a' :: 'N' :: r => some (.nan, r)
    | 'I' :: 'n' :: 'f' :: 'i' :: 'n' :: 'i' :: 't' :: 'y' :: r => some (.inf, r)
    | '-' :: 'I' :: 'n' :: 'f' :: 'i' :: 'n' :: 'i' :: 't' :: 'y' :: r => some (.ninf, r)
    | c :: rest =>
      if c = '-' || isDigitCh c then parseNum (c :: rest) else none
    | [] => none

/-- Parse the members of a non-empty JSON object (after the `{` and any
whitespace), accumulating into a Python dict via `dictInsert`. -/
def parseObjBody : Nat → List (String × JsonVal) → List Char →
    Option (JsonVal × List Char)
  | 0, _, _ => none
  | fuel + 1, acc, cs =>
    match cs with
    | '"' :: r =>
      (match parseStrBody r with
       | none => none
       | some (key, r1) =>
         match skipWs r1 with
         | ':' :: r2 =>
           (match parseValue fuel r2 with
            | none => none
            | some (v, r3) =>
              match skipWs r3 with
              | ',' :: r4 => parseObjBody fuel (dictInsert key v acc) (skipWs r4)
              | '\x7d' :: r4 => some (.obj (dictInsert key v acc), r4)
              | _ => none)
         | _ => none)
    | _ => none

/-- Parse the elements of a non-empty JSON array (after the `[` and any
whitespace). -/
def parseArrBody : Nat → List Char → Option (JsonVal × List Char)
  | 0, _ => none
  | fuel + 1, cs =>
    match parseValue fuel cs with
    | none => none
    | some (v, r) =>
      match skipWs r with
      | ',' :: r2 =>
        (match parseArrBody fuel (skipWs r2) with
         | some (.arr vs, r3) => some (.arr (v :: vs), r3)
         | _ => none)
      | ']' :: r2 => some (.arr [v], r2)
      | _ => none

end

/-- Model of Python `json.loads`: parse one value, then require only
whitespace to remain (otherwise the module raises `JSONDecodeError`
with "Extra data").  `none` models a raised `JSONDecodeError`. -/
def jsonLoads (s : String) : Option JsonVal :=
  match parseValue (2 * s.length + 2) s.toList with
  | some (v, rest) => if (skipWs rest).isEmpty then some v else none
  | none => none

/-- One `client.chat.completions.create(...)` invocation, with the keyword
arguments the service passes (`messages` as role/content pairs;
`temperature` an exact decimal in `ℚ`). -/
structure CompletionCall where
  model : String
  messages : List (String × String)
  temperature : ℚ
  max_tokens : Nat
deriving DecidableEq

/-- The content of a call's user message (its second message). -/
def CompletionCall.userPrompt (c : CompletionCall) : String :=
  (((c.messages.get? 1).map Prod.snd).getD "")

/-- The upstream model, abstracted: maps a completion call to the first
choice's message content, or to the stringified exception it raised. -/
def CompletionClient : Type := CompletionCall → Except String String

/-- The body of `POST /analyze-news` (`NewsRequest` in `src/main.py`). -/
structure NewsRequest where
  instrument : String
  articles : List Article

/-- The success response of `analyze_news` (`src/main.py` lines 131-135). -/
structure AnalysisResult where
  status : String
  analysis : String
  verdict : JsonVal

/-- The success response of `get_market_context` (`src/main.py` line 167). -/
structure MarketContextResult where
  market_context : String
deriving DecidableEq

/-- The stage-1 completion call of `analyze_news`
(`src/main.py` lines 84-95). -/
def narrativeCall (request : NewsRequest) : CompletionCall :=
  { model := "gpt-4-0125-preview"
    messages :=
      [("system", SYSTEM_PROMPT),
       ("user", narrativeUserPrompt request.instrument (articlesText request.articles))]
    temperature := 0.5
    max_tokens := 1000 }

/-- The stage-2 completion call of `analyze_news`
(`src/main.py` lines 106-117). -/
def verdictCall (instrument : String) (narrativeText : String) : CompletionCall :=
  { model := "gpt-4-0125-preview"
    messages :=
      [("system", "You are a trading advisor that provides clear, decisive trading verdicts based on news analysis."),
       ("user", verdictUserPrompt instrument narrativeText)]
    temperature := 0.3
    max_tokens := 200 }

/-- The completion call of `get_market_context`
(`src/main.py` lines 153-164). -/
def contextCall (instrument : String) : CompletionCall :=
  { model := "gpt-4-0125-preview"
    messages :=
      [("system", "You are a market analyst providing context and correlation analysis for trading instruments."),
       ("user", contextUserPrompt instrument)]
    temperature := 0.5
    max_tokens := 500 }

/-- The fixed fallback dict built when `json.loads` raises
(`src/main.py` lines 125-129). -/
def defaultVerdict : JsonVal :=
  .obj [("verdict", .str "NEUTRAL"),
        ("confidence", .num 50),
        ("key_reason", .str "Could not parse verdict response")]

/-- The `verdict_json` computation of `analyze_news` (`src/main.py` lines
121-129): `json.loads` of the stage-2 text, or the fixed fallback dict
when that raises `JSONDecodeError`. -/
def coerceVerdict (raw : String) : JsonVal :=
  match jsonLoads raw with
  | some v => v
  | none => defaultVerdict

/-- The `POST /analyze-news` handler (`src/main.py` lines 62-139),
instrumented with the list of completion calls it issues.  An `.error e`
outcome models the `except` handler raising `HTTPException(500, str(e))`;
the call list records which upstream round-trips were attempted before
the handler returned. -/
def analyze_news (client : CompletionClient) (request : NewsRequest) :
    List CompletionCall × Except String AnalysisResult :=
  let call1 := narrativeCall request
  match client call1 with
  | .error e => ([call1], .error e)
  | .ok analysisText =>
    let call2 := verdictCall request.instrument analysisText
    match client call2 with
    | .error e => ([call1, call2], .error e)
    | .ok verdictText =>
      ([call1, call2],
       .ok { status := "success"
             analysis := analysisText
             verdict := coerceVerdict verdictText })

/-- The `POST /get-market-context` handler (`src/main.py` lines 141-171),
instrumented with the list of completion calls it issues. -/
def get_market_context (client : CompletionClient) (instrument : String) :
    List CompletionCall × Except String MarketContextResult :=
  let call := contextCall instrument
  match client call with
  | .error e => ([call], .error e)
  | .ok text => ([call], .ok { market_context := text })

/-- Association lookup in a parsed JSON object. -/
def lookupField : List (String × JsonVal) → String → Option JsonVal
  | [], _ => none
  | (k, v) :: rest, key => if k = key then some v else lookupField rest key

/-- Membership in the five-literal verdict enumeration of the spec. -/
def isVerdictEnum (s : String) : Bool :=
  s = "STRONG_BUY" || s = "BUY" || s = "NEUTRAL" || s = "SELL" || s = "STRONG_SELL"

/-- The spec's fully-populated-Verdict shape: an object whose `verdict`
field is one of the five enum literals, whose `confidence` is an integer
in 0-100, and whose `key_reason` is a string. -/
def isFullVerdict : JsonVal → Bool
  | .obj fields =>
    (match lookupField fields "verdict" with
     | some (.str s) => isVerdictEnum s
     | _ => false) &&
    (match lookupField fields "confidence" with
     | some (.num q) => q.den == 1 && decide (0 ≤ q.num) && decide (q.num ≤ 100)
     | _ => false) &&
    (match lookupField fields "key_reason" with
     | some (.str _) => true
     | _ => false)
  | _ => false

/-- Concrete request used by the witnesses: the spec's instrument with an
empty article list. -/
def reqEmpty : NewsRequest := { instrument := "EURUSD", articles := [] }

/-- The spec's scenario article, all four fields present. -/
def artFull : Article :=
  { title := some (.str "ECB holds rates")
    content := some (.str "The ECB kept rates unchanged.")
    source := some (.str "Reuters")
    date := some (.str "2024-01-10") }

/-- An article whose title string itself contains a newline. -/
def artNewline : Article :=
  { title := some (.str "A\nB"), content := none, source := none, date := none }

/-- An article whose `title` key is present but holds Python `None`. -/
def artNoneTitle : Article :=
  { title := some .pynone, content := none, source := none, date := none }

/-- The spec's scenario stage-2 reply, a well-formed JSON object. -/
def jsonBuyText : String :=
  "\x7b\"verdict\":\"BUY\",\"confidence\":70,\"key_reason\":\"Rate hold seen as supportive\"\x7d"

/-- The parsed form of `jsonBuyText`. -/
def objBuy : JsonVal :=
  .obj [("verdict", .str "BUY"), ("confidence", .num 70),
        ("key_reason", .str "Rate hold seen as supportive")]

/-- A client whose replies depend only on the per-call token budget:
narrative text for the stage-1 budget, the scenario JSON for the stage-2
budget, context text otherwise. -/
def clientScenario : CompletionClient := fun c =>
  if c.max_tokens = 1000 then .ok "...Bullish..."
  else if c.max_tokens = 200 then .ok jsonBuyText
  else .ok "context-text"

/-- A client whose stage-2 reply is not JSON. -/
def clientNonJson : CompletionClient := fun c =>
  if c.max_tokens = 1000 then .ok "narrative-text" else .ok "I think buy"

/-- A client whose stage-2 reply is the empty JSON object. -/
def clientEmptyVerdict : CompletionClient := fun c =>
  if c.max_tokens = 1000 then .ok "narrative-text" else .ok "\x7b\x7d"

/-- A client that always raises. -/
def clientFailFirst : CompletionClient := fun _ => .error "upstream down"

/-- The call trace of `analyze_news clientScenario reqEmpty`. -/
def traceScenario : List CompletionCall :=
  [narrativeCall reqEmpty, verdictCall "EURUSD" "...Bullish..."]

/-- The response of `analyze_news clientScenario reqEmpty`. -/
def resScenario : AnalysisResult :=
  { status := "success", analysis := "...Bullish...", verdict := objBuy }

/-- The call trace of `analyze_news clientNonJson reqEmpty`. -/
def traceNonJson : List CompletionCall :=
  [narrativeCall reqEmpty, verdictCall "EURUSD" "narrative-text"]

/-- The response of `analyze_news clientNonJson reqEmpty`. -/
def resNonJson : AnalysisResult :=
  { status := "success", analysis := "narrative-text", verdict := defaultVerdict }

/-- C1: on any request where both completion calls succeed, `analyze_news`
issues exactly two completion calls, and the user prompt of the second
(verdict) call contains the full text returned by the first (narrative)
call — exhibited by the explicit prefix/suffix decomposition of that
prompt; this holds for an empty article list too, whose formatted article
text is the empty string. -/
theorem news_two_calls_second_contains_first (client : CompletionClient)
    (req : NewsRequest) (trace : List CompletionCall) (res : AnalysisResult)
    (h : analyze_news client req = (trace, Except.ok res)) :
    trace.length = 2 ∧
    trace = [narrativeCall req, verdictCall req.instrument res.analysis] ∧
    client (narrativeCall req) = .ok res.analysis ∧
    (verdictCall req.instrument res.analysis).userPrompt =
      verdictUserPromptPre req.instrument ++ res.analysis ++ verdictUserPromptPost ∧
    (req.articles = [] → articlesText req.articles = "") := by
  cases hc1 : client (narrativeCall req) with
  | error e => simp [analyze_news, hc1] at h
  | ok t1 =>
    cases hc2 : client (verdictCall req.instrument t1) with
    | error e => simp [analyze_news, hc1, hc2] at h
    | ok t2 =>
      simp [analyze_news, hc1, hc2] at h
      obtain ⟨htrace, hres⟩ := h
      subst htrace
      subst hres
      refine ⟨rfl, rfl, rfl, rfl, fun he => by rw [he]; rfl⟩

/-- Witness for C1: the spec's scenario client on an empty-article request. -/
theorem news_two_calls_second_contains_first_witness :
    traceScenario.length = 2 ∧
    traceScenario =
      [narrativeCall reqEmpty, verdictCall reqEmpty.instrument resScenario.analysis] ∧
    clientScenario (narrativeCall reqEmpty) = .ok resScenario.analysis ∧
    (verdictCall reqEmpty.instrument resScenario.analysis).userPrompt =
      verdictUserPromptPre reqEmpty.instrument ++ resScenario.analysis ++
        verdictUserPromptPost ∧
    (reqEmpty.articles = [] → articlesText reqEmpty.articles = "") :=
  news_two_calls_second_contains_first clientScenario reqEmpty traceScenario
    resScenario rfl

/-- C2 counterexample: the stage-2 text `"5"` is a well-formed JSON payload
whose top level is not an object, yet the coercion returns the parsed
number `5`, not the fixed default Verdict — the code only falls back on
`json.JSONDecodeError`, which a non-object payload does not raise. -/
theorem verdict_coercion_nonobject_cex :
    coerceVerdict "5" = JsonVal.num 5 ∧ coerceVerdict "5" ≠ defaultVerdict := by
  have h2 : coerceVerdict "5" = JsonVal.num 5 := rfl
  refine ⟨h2, ?_⟩
  intro h
  rw [h2] at h
  exact JsonVal.noConfusion h

/-- C2 amended: for every stage-2 completion text with malformed syntax
(`json.loads` raises), the coercion returns exactly the fixed default
Verdict and never errors; a syntactically well-formed payload — object or
not — is passed through as parsed. -/
theorem verdict_coercion_default_on_decode_error (s : String) :
    (jsonLoads s = none → coerceVerdict s = defaultVerdict) ∧
    (∀ v, jsonLoads s = some v → coerceVerdict s = v) := by
  constructor
  · intro h; simp [coerceVerdict, h]
  · intro v h; simp [coerceVerdict, h]

/-- Witness for the amended C2: a non-parseable stage-2 text. -/
theorem verdict_coercion_default_on_decode_error_witness :
    coerceVerdict "I think buy" = defaultVerdict :=
  (verdict_coercion_default_on_decode_error "I think buy").1 rfl

/-- C3 counterexample: when the stage-2 reply is the empty JSON object,
the response's verdict is the empty object — with no verdict, confidence
or key_reason field at all — so the verdict placed in the response is not
always fully populated. -/
theorem verdict_fully_populated_cex :
    (analyze_news clientEmptyVerdict reqEmpty).2 =
      Except.ok { status := "success", analysis := "narrative-text",
                  verdict := JsonVal.obj [] } ∧
    isFullVerdict (JsonVal.obj []) = false := ⟨rfl, rfl⟩

/-- C3 amended: the verdict placed in a success response is either the
fixed default Verdict (which is fully populated) or the stage-2 reply's
parsed JSON value passed through without any shape validation. -/
theorem verdict_default_or_passthrough (client : CompletionClient)
    (req : NewsRequest) (trace : List CompletionCall) (res : AnalysisResult)
    (h : analyze_news client req = (trace, Except.ok res)) :
    isFullVerdict defaultVerdict = true ∧
    (res.verdict = defaultVerdict ∨
      ∃ t2, client (verdictCall req.instrument res.analysis) = .ok t2 ∧
        jsonLoads t2 = some res.verdict) := by
  cases hc1 : client (narrativeCall req) with
  | error e => simp [analyze_news, hc1] at h
  | ok t1 =>
    cases hc2 : client (verdictCall req.instrument t1) with
    | error e => simp [analyze_news, hc1, hc2] at h
    | ok t2 =>
      simp [analyze_news, hc1, hc2] at h
      obtain ⟨htrace, hres⟩ := h
      subst hres
      refine ⟨rfl, ?_⟩
      cases hj : jsonLoads t2 with
      | none => left; simp [coerceVerdict, hj]
      | some v => right; exact ⟨t2, hc2, by simp [coerceVerdict, hj]⟩

/-- Witness for the amended C3: a client whose stage-2 reply is not JSON. -/
theorem verdict_default_or_passthrough_witness :
    isFullVerdict defaultVerdict = true ∧
    (resNonJson.verdict = defaultVerdict ∨
      ∃ t2, clientNonJson (verdictCall reqEmpty.instrument resNonJson.analysis) =
          .ok t2 ∧
        jsonLoads t2 = some resNonJson.verdict) :=
  verdict_default_or_passthrough clientNonJson reqEmpty traceNonJson resNonJson rfl

/-- C4: if the first (narrative) completion call fails, the second call is
never issued and the request ends as a single error; likewise a stage-2
failure ends as a single error — no partial result is ever returned on a
stage failure. -/
theorem first_call_failure_aborts (client : CompletionClient) (req : NewsRequest) :
    (∀ e, client (narrativeCall req) = .error e →
      analyze_news client req = ([narrativeCall req], .error e)) ∧
    (∀ t1 e, client (narrativeCall req) = .ok t1 →
      client (verdictCall req.instrument t1) = .error e →
      analyze_news client req =
        ([narrativeCall req, verdictCall req.instrument t1], .error e)) := by
  constructor
  · intro e h
    simp [analyze_news, h]
  · intro t1 e h1 h2
    simp [analyze_news, h1, h2]

/-- Witness for C4: a client that always raises. -/
theorem first_call_failure_aborts_witness :
    analyze_news clientFailFirst reqEmpty =
      ([narrativeCall reqEmpty], .error "upstream down") :=
  (first_call_failure_aborts clientFailFirst reqEmpty).1 "upstream down" rfl

/-- C5: for every stage-2 completion text that parses as a JSON object
with exactly the fields verdict, confidence and key_reason, the verdict
coercion returns exactly those three values. -/
theorem verdict_coercion_roundtrip (s v r : String) (c : ℚ)
    (h : jsonLoads s = some (.obj [("verdict", .str v), ("confidence", .num c),
      ("key_reason", .str r)])) :
    coerceVerdict s = .obj [("verdict", .str v), ("confidence", .num c),
      ("key_reason", .str r)] := by
  simp [coerceVerdict, h]

/-- Witness for C5: the spec's scenario stage-2 reply text. -/
theorem verdict_coercion_roundtrip_witness :
    coerceVerdict jsonBuyText = .obj [("verdict", .str "BUY"),
      ("confidence", .num 70), ("key_reason", .str "Rate hold seen as supportive")] :=
  verdict_coercion_roundtrip jsonBuyText "BUY" "Rate hold seen as supportive" 70 rfl

/-- C6 counterexample: an article whose title string contains a newline
produces a five-line block (four newline separators), not a four-line
block, so the formatter does not emit exactly one four-line block per
article for every list of article records. -/
theorem article_block_four_line_cex :
    articlesText [artNewline] =
      "Title: A\nB\nContent: No Content\nSource: Unknown\nDate: Unknown" ∧
    (articlesText [artNewline]).data.count '\n' ≠ 3 := ⟨rfl, by decide⟩

/-- C6 amended: the formatter emits one block per article in caller order,
joined by a blank line, with the documented placeholder substituted for
each missing field, and the empty list yields the empty string; each block
is a four-line block (exactly three newline separators) provided the
rendered field values themselves contain no newline character. -/
theorem article_blocks_structure (l : List Article) :
    articlesText l = String.intercalate "\n\n" (l.map formatArticle) ∧
    articlesText [] = "" ∧
    (∀ a : Article, formatArticle a =
      "Title: " ++ fieldText a.title "No Title" ++ "\n" ++
      "Content: " ++ fieldText a.content "No Content" ++ "\n" ++
      "Source: " ++ fieldText a.source "Unknown" ++ "\n" ++
      "Date: " ++ fieldText a.date "Unknown") ∧
    (∀ a ∈ l, '\n' ∉ (fieldText a.title "No Title").data →
      '\n' ∉ (fieldText a.content "No Content").data →
      '\n' ∉ (fieldText a.source "Unknown").data →
      '\n' ∉ (fieldText a.date "Unknown").data →
      (formatArticle a).data.count '\n' = 3) := by
  refine ⟨rfl, rfl, fun a => rfl, ?_⟩
  intro a _ h1 h2 h3 h4
  have c1 := List.count_eq_zero.mpr h1
  have c2 := List.count_eq_zero.mpr h2
  have c3 := List.count_eq_zero.mpr h3
  have c4 := List.count_eq_zero.mpr h4
  simp [formatArticle, String.data_append, List.count_append, c1, c2, c3, c4]

/-- Witness for the amended C6: the spec's scenario article. -/
theorem article_blocks_structure_witness :
    (formatArticle artFull).data.count '\n' = 3 :=
  (article_blocks_structure [artFull]).2.2.2 artFull (by decide) (by decide)
    (by decide) (by decide) (by decide)

/-- C7: `get_market_context` issues exactly one completion call; on
success it returns the generated text unmodified under the
`market_context` key, and any failure of that call aborts the request
with that single error. -/
theorem market_context_single_call (client : CompletionClient)
    (instrument : String) :
    (get_market_context client instrument).1 = [contextCall instrument] ∧
    (get_market_context client instrument).2 =
      (client (contextCall instrument)).map (fun t => { market_context := t }) := by
  cases h : client (contextCall instrument) <;>
    simp [get_market_context, h, Except.map]

/-- C8: when both completion calls succeed but the stage-2 text fails to
parse, the response is still the success shape, its analysis field is the
stage-1 narrative text verbatim, and its verdict is the fixed default. -/
theorem stage2_parse_failure_not_surfaced (client : CompletionClient)
    (req : NewsRequest) (t1 t2 : String)
    (h1 : client (narrativeCall req) = .ok t1)
    (h2 : client (verdictCall req.instrument t1) = .ok t2)
    (h3 : jsonLoads t2 = none) :
    analyze_news client req =
      ([narrativeCall req, verdictCall req.instrument t1],
       .ok { status := "success", analysis := t1, verdict := defaultVerdict }) := by
  simp [analyze_news, h1, h2, coerceVerdict, h3]

/-- Witness for C8: a client whose stage-2 reply is non-JSON text. -/
theorem stage2_parse_failure_not_surfaced_witness :
    analyze_news clientNonJson reqEmpty =
      ([narrativeCall reqEmpty, verdictCall reqEmpty.instrument "narrative-text"],
       .ok { status := "success", analysis := "narrative-text",
             verdict := defaultVerdict }) :=
  stage2_parse_failure_not_surfaced clientNonJson reqEmpty "narrative-text"
    "I think buy" rfl rfl rfl

/-- C9: every completion call the two endpoints issue is one of the three
call shapes, and those carry temperature 0.5 with budget 1000 (narrative),
temperature 0.3 with budget 200 (verdict), and temperature 0.5 with
budget 500 (market context). -/
theorem completion_call_parameters (client : CompletionClient) (req : NewsRequest)
    (instrument t1 : String) (trace trace2 : List CompletionCall)
    (r : Except String AnalysisResult) (r2 : Except String MarketContextResult)
    (h : analyze_news client req = (trace, r))
    (h2 : get_market_context client instrument = (trace2, r2)) :
    ((narrativeCall req).temperature = 0.5 ∧ (narrativeCall req).max_tokens = 1000) ∧
    ((verdictCall instrument t1).temperature = 0.3 ∧
      (verdictCall instrument t1).max_tokens = 200) ∧
    ((contextCall instrument).temperature = 0.5 ∧
      (contextCall instrument).max_tokens = 500) ∧
    (∀ c ∈ trace, c = narrativeCall req ∨ ∃ s, c = verdictCall req.instrument s) ∧
    (∀ c ∈ trace2, c = contextCall instrument) := by
  refine ⟨⟨rfl, rfl⟩, ⟨rfl, rfl⟩, ⟨rfl, rfl⟩, ?_, ?_⟩
  · intro c hc
    cases hc1 : client (narrativeCall req) with
    | error e =>
      simp [analyze_news, hc1] at h
      obtain ⟨ht, _⟩ := h
      subst ht
      simp at hc
      subst hc
      exact Or.inl rfl
    | ok t =>
      cases hc2 : client (verdictCall req.instrument t) with
      | error e =>
        simp [analyze_news, hc1, hc2] at h
        obtain ⟨ht, _⟩ := h
        subst ht
        simp at hc
        rcases hc with hc | hc <;> subst hc
        · exact Or.inl rfl
        · exact Or.inr ⟨t, rfl⟩
      | ok t2 =>
        simp [analyze_news, hc1, hc2] at h
        obtain ⟨ht, _⟩ := h
        subst ht
        simp at hc
        rcases hc with hc | hc <;> subst hc
        · exact Or.inl rfl
        · exact Or.inr ⟨t, rfl⟩
  · intro c hc
    cases hc3 : client (contextCall instrument) with
    | error e =>
      simp [get_market_context, hc3] at h2
      obtain ⟨ht, _⟩ := h2
      subst ht
      simp at hc
      subst hc
      rfl
    | ok t =>
      simp [get_market_context, hc3] at h2
      obtain ⟨ht, _⟩ := h2
      subst ht
      simp at hc
      subst hc
      rfl

/-- Witness for C9: the scenario client against both endpoints. -/
theorem completion_call_parameters_witness :
    ((narrativeCall reqEmpty).temperature = 0.5 ∧
      (narrativeCall reqEmpty).max_tokens = 1000) ∧
    ((verdictCall "EURUSD" "...Bullish...").temperature = 0.3 ∧
      (verdictCall "EURUSD" "...Bullish...").max_tokens = 200) ∧
    ((contextCall "EURUSD").temperature = 0.5 ∧
      (contextCall "EURUSD").max_tokens = 500) ∧
    (∀ c ∈ traceScenario,
      c = narrativeCall reqEmpty ∨ ∃ s, c = verdictCall reqEmpty.instrument s) ∧
    (∀ c ∈ [contextCall "EURUSD"], c = contextCall "EURUSD") :=
  completion_call_parameters clientScenario reqEmpty "EURUSD" "...Bullish..."
    traceScenario [contextCall "EURUSD"] (.ok resScenario)
    (.ok { market_context := "context-text" }) rfl rfl

/-- C10: when the title key is present in the article record, the block
renders the value's string form in place of the placeholder; in
particular Python `None` renders as the text `None`, so the block reads
`Title: None` rather than `Title: No Title`. -/
theorem present_title_field_renders_value (a : Article) (v : PyVal)
    (h : a.title = some v) :
    formatArticle a =
      "Title: " ++ v.render ++ "\n" ++
      "Content: " ++ fieldText a.content "No Content" ++ "\n" ++
      "Source: " ++ fieldText a.source "Unknown" ++ "\n" ++
      "Date: " ++ fieldText a.date "Unknown" ∧
    PyVal.render .pynone = "None" := by
  refine ⟨?_, rfl⟩
  simp [formatArticle, fieldText, h]

/-- Witness for C10: an article whose title key holds Python `None`. -/
theorem present_title_field_renders_value_witness :
    formatArticle artNoneTitle =
      "Title: " ++ PyVal.render .pynone ++ "\n" ++
      "Content: " ++ fieldText artNoneTitle.content "No Content" ++ "\n" ++
      "Source: " ++ fieldText artNoneTitle.source "Unknown" ++ "\n" ++
      "Date: " ++ fieldText artNoneTitle.date "Unknown" ∧
    PyVal.render .pynone = "None" :=
  present_title_field_renders_value artNoneTitle .pynone rfl
